import Mathlib

/-!
Shallow embedding of the Zeeky conversational assistant
(`src/zeeky/assistant.py` and `src/services/api_server.py`).

The Python code mutates a `ZeekyAssistant` object in place and raises
exceptions; here state passing is explicit and fallible operations return
`Except`.  The two remote providers are external collaborators: their
behaviour (availability of the anthropic library, the environment
credential, the payloads returned by the two network calls) is a parameter
`Env` of the embedding, and `chat` is a pure function of that parameter.

Error taxonomy: the Python code raises bare `RuntimeError`s for the two
pre-network checks on the Anthropic path (library missing, credential
missing) and lets provider/transport exceptions propagate uncaught.  The
specification names these kinds `ConfigurationError` and `ProviderError`;
the embedding labels each raise site accordingly: the two eager checks are
`configurationError`, every failure arising from the provider call or its
response shape (including the out-of-range access on zero completion
choices) is `providerError`.
-/

set_option autoImplicit false

deriving instance DecidableEq for Except

/-- The role tag of a transcript message, as carried in the "role" field
of the Python message dicts. -/
inductive Role where
  | system
  | user
  | assistant
deriving DecidableEq, Repr, BEq

/-- A single transcript entry: one Python dict with a "role" and a
"content" field. -/
structure Message where
  role : Role
  content : String
deriving DecidableEq, Repr, BEq

/-- The state of a `ZeekyAssistant` instance: the stored model name and the
`self.messages` list. -/
structure ZeekyAssistant where
  model : String
  messages : List Message
deriving DecidableEq, Repr, BEq

/-- The external world `chat` interacts with.
`anthropicAvailable` models whether `import anthropic` succeeded;
`anthropicApiKey` models `os.getenv ("ANTHROPIC_API_KEY")` (`none` when the
variable is unset); `anthropicSend msgs model maxTokens` models the
`client.messages.create` call, returning the list of content-block texts or
a transport error; `openaiSend msgs model` models
`openai.ChatCompletion.create`, returning the list of choice message
contents or a transport error. -/
structure Env where
  anthropicAvailable : Bool
  anthropicApiKey : Option String
  anthropicSend : List Message → String → Nat → Except Unit (List String)
  openaiSend : List Message → String → Except Unit (List String)

/-- Python `s.startswith(p)`: `p` is a prefix of `s` (case-sensitive),
modelled on the character list. -/
def pyStartsWith (s p : String) : Bool := p.data.isPrefixOf s.data

/-- The whitespace characters Python `str.strip()` removes (the ASCII
ones; the claims only exercise these). -/
def pyIsSpace (c : Char) : Bool :=
  c = ' ' || c = '\t' || c = '\n' || c = '\r' || c = '\x0b' || c = '\x0c'

/-- Python `s.strip()`: drop leading and trailing whitespace. -/
def pyStrip (s : String) : String :=
  ⟨((s.data.dropWhile pyIsSpace).reverse.dropWhile pyIsSpace).reverse⟩

/-- The fixed default persona used when no (truthy) system prompt is given. -/
def defaultSystemPersona : String :=
  "You are Zeeky, an all-in-one ultimate AI assistant. Be helpful, concise, and friendly."

/-- Python truthiness of `a or b` on `str | None`: `None` and `""` are
falsy, so both select the default. -/
def truthyOr : Option String → String → String
  | none, d => d
  | some s, d => if s = "" then d else s

/-- Python `ZeekyAssistant.__init__`: stores the model and seeds the
transcript with one system message, whose content is
`system_prompt or <default>`. -/
def ZeekyAssistant.init (model : String) (systemPrompt : Option String) :
    ZeekyAssistant :=
  { model := model
    messages := [⟨Role.system, truthyOr systemPrompt defaultSystemPersona⟩] }

/-- The two error kinds a `chat` call can surface (see the module comment
for how they map onto the raise sites of the Python code). -/
inductive ChatError where
  | configurationError
  | providerError
deriving DecidableEq, Repr

/-- The fixed `max_tokens=1024` passed on the Anthropic path. -/
def anthropicMaxTokens : Nat := 1024

/-- Step 1 of `ZeekyAssistant.chat`: `self.messages.append` of the user
message, verbatim and unvalidated. -/
def appendUser (a : ZeekyAssistant) (userInput : String) : ZeekyAssistant :=
  { a with messages := a.messages ++ [⟨Role.user, userInput⟩] }

/-- Steps 2-5 of `ZeekyAssistant.chat`, on the state `a1` that already
holds the new user message.  Mirrors the source: dispatch on the
case-sensitive model-name prefix; on the Anthropic branch the availability
check, then the credential check (`not api_key` is true for both an unset
and an empty variable) run before the network call, the provider gets the
entire transcript with the fixed token cap, and the reply is the
concatenation of the block texts with no separator; on the OpenAI branch
the reply is the first choice's content stripped of surrounding
whitespace, and zero choices is a failure (the out-of-range subscript).
The reply is appended as an assistant message only on success. -/
def chatDispatch (env : Env) (a1 : ZeekyAssistant) :
    ZeekyAssistant × Except ChatError String :=
  if pyStartsWith a1.model "claude" || pyStartsWith a1.model "anthropic" then
    if env.anthropicAvailable = false then
      (a1, Except.error ChatError.configurationError)
    else
      match env.anthropicApiKey with
      | none => (a1, Except.error ChatError.configurationError)
      | some key =>
        if key = "" then
          (a1, Except.error ChatError.configurationError)
        else
          match env.anthropicSend a1.messages a1.model anthropicMaxTokens with
          | Except.error _ => (a1, Except.error ChatError.providerError)
          | Except.ok blocks =>
            let reply := String.join blocks
            ({ a1 with messages := a1.messages ++ [⟨Role.assistant, reply⟩] },
              Except.ok reply)
  else
    match env.openaiSend a1.messages a1.model with
    | Except.error _ => (a1, Except.error ChatError.providerError)
    | Except.ok choices =>
      match choices with
      | [] => (a1, Except.error ChatError.providerError)
      | c :: _ =>
        let reply := pyStrip c
        ({ a1 with messages := a1.messages ++ [⟨Role.assistant, reply⟩] },
          Except.ok reply)

/-- Python `ZeekyAssistant.chat`: step 1 appends the user message (this
happens unconditionally and is retained on every failure path), then the
dispatch runs on the grown transcript. -/
def chat (env : Env) (a : ZeekyAssistant) (userInput : String) :
    ZeekyAssistant × Except ChatError String :=
  chatDispatch env (appendUser a userInput)

/-- Runs a sequence of `chat` calls on one assistant, threading the state
and collecting every call result. -/
def runChats (env : Env) (a : ZeekyAssistant) :
    List String → ZeekyAssistant × List (Except ChatError String)
  | [] => (a, [])
  | x :: xs =>
    let p := chat env a x
    let q := runChats env p.1 xs
    (q.1, p.2 :: q.2)

/-- Checks that a message list is a sequence of user/assistant pairs in
strict alternation. -/
def userAssistantPairs : List Message → Bool
  | [] => true
  | u :: b :: rest =>
    u.role == Role.user && b.role == Role.assistant && userAssistantPairs rest
  | [_] => false

/-- Checks the transcript shape: one leading system message followed by
strictly alternating user/assistant pairs. -/
def wellFormedTranscript : List Message → Bool
  | [] => false
  | s :: rest => s.role == Role.system && userAssistantPairs rest

/-- Flattens (input, reply) pairs into the user/assistant messages they
leave in the transcript. -/
def interleavePairs : List (String × String) → List Message
  | [] => []
  | (u, r) :: rest =>
    ⟨Role.user, u⟩ :: ⟨Role.assistant, r⟩ :: interleavePairs rest

/-! HTTP layer (`src/services/api_server.py`).  The module-level dict
`_sessions` is an association list with Python-dict insert semantics; the
`uuid.uuid4().hex` draw is a parameter `freshId` of the handler. -/

/-- Dict lookup `_sessions[sid]` / `sid in _sessions`. -/
def getSession : List (String × ZeekyAssistant) → String → Option ZeekyAssistant
  | [], _ => none
  | (k, v) :: rest, sid => if k = sid then some v else getSession rest sid

/-- Dict insert `_sessions[sid] = a`: overwrites an existing binding,
otherwise appends. -/
def setSession : List (String × ZeekyAssistant) → String → ZeekyAssistant →
    List (String × ZeekyAssistant)
  | [], sid, a => [(sid, a)]
  | (k, v) :: rest, sid, a =>
    if k = sid then (k, a) :: rest else (k, v) :: setSession rest sid a

/-- The body of `POST /chat`. -/
structure ChatRequest where
  session_id : Option String
  message : String

/-- The success response of `POST /chat`. -/
structure ChatResponse where
  session_id : String
  reply : String
deriving DecidableEq, Repr

/-- How a `POST /chat` request can fail: `notFound` is the explicit
`HTTPException(404, "Invalid session_id")`; `upstream e` is an exception
raised by `assistant.chat` propagating out of the handler. -/
inductive ApiError where
  | notFound
  | upstream (e : ChatError)
deriving DecidableEq, Repr

/-- Shared tail of both handler paths: run `assistant.chat(message)` on the
assistant stored under `sid`.  The mutation `chat` performs on the
assistant object is visible through the dict alias, so the updated state is
stored back under `sid` on success and on failure alike. -/
def finishChat (env : Env) (sessions : List (String × ZeekyAssistant))
    (sid : String) (a : ZeekyAssistant) (message : String) :
    List (String × ZeekyAssistant) × Except ApiError ChatResponse :=
  let r := chat env a message
  let sessions1 := setSession sessions sid r.1
  match r.2 with
  | Except.ok reply => (sessions1, Except.ok ⟨sid, reply⟩)
  | Except.error e => (sessions1, Except.error (ApiError.upstream e))

/-- The `else` arm of the handler: create a session under the fresh
identifier (a `ZeekyAssistant()` with all defaults), store it, then chat. -/
def handleCreate (env : Env) (freshId : String)
    (sessions : List (String × ZeekyAssistant)) (message : String) :
    List (String × ZeekyAssistant) × Except ApiError ChatResponse :=
  let a := ZeekyAssistant.init "gpt-4o-mini" none
  let sessions1 := setSession sessions freshId a
  finishChat env sessions1 freshId a message

/-- The `POST /chat` handler.  Python evaluates
`if request.session_id and request.session_id in _sessions` /
`elif request.session_id` / `else`: a `session_id` that is `None` or the
empty string (falsy) takes the creation branch; a truthy known one is
reused; a truthy unknown one is a 404 with no session created. -/
def handleChat (env : Env) (freshId : String)
    (sessions : List (String × ZeekyAssistant)) (req : ChatRequest) :
    List (String × ZeekyAssistant) × Except ApiError ChatResponse :=
  match req.session_id with
  | some sid =>
    if sid = "" then
      handleCreate env freshId sessions req.message
    else
      match getSession sessions sid with
      | some a => finishChat env sessions sid a req.message
      | none => (sessions, Except.error ApiError.notFound)
  | none => handleCreate env freshId sessions req.message

/-! Concrete provider worlds used to exercise the theorems on closed
inputs. -/

/-- The anthropic library is unavailable and the OpenAI endpoint answers
with the single choice "OPENAI": the two routes are observably distinct. -/
def routeProbeEnv : Env :=
  { anthropicAvailable := false
    anthropicApiKey := none
    anthropicSend := fun _ _ _ => Except.error ()
    openaiSend := fun _ _ => Except.ok ["OPENAI"] }

/-- The OpenAI endpoint answers every call with the single choice "Echo". -/
def echoEnv : Env :=
  { anthropicAvailable := false
    anthropicApiKey := none
    anthropicSend := fun _ _ _ => Except.error ()
    openaiSend := fun _ _ => Except.ok ["Echo"] }

/-- Both transports fail even though Anthropic is fully configured. -/
def transportFailEnv : Env :=
  { anthropicAvailable := true
    anthropicApiKey := some "k"
    anthropicSend := fun _ _ _ => Except.error ()
    openaiSend := fun _ _ => Except.error () }

/-- Anthropic fully configured, answering with the blocks "Hel", "lo!". -/
def anthropicBlocksEnv : Env :=
  { anthropicAvailable := true
    anthropicApiKey := some "k"
    anthropicSend := fun _ _ _ => Except.ok ["Hel", "lo!"]
    openaiSend := fun _ _ => Except.error () }

/-- The OpenAI endpoint answers with zero completion choices. -/
def zeroChoicesEnv : Env :=
  { anthropicAvailable := false
    anthropicApiKey := none
    anthropicSend := fun _ _ _ => Except.error ()
    openaiSend := fun _ _ => Except.ok [] }

/-- The OpenAI endpoint answers with one choice carrying surrounding
whitespace. -/
def whitespaceChoiceEnv : Env :=
  { anthropicAvailable := false
    anthropicApiKey := none
    anthropicSend := fun _ _ _ => Except.error ()
    openaiSend := fun _ _ => Except.ok ["  Echo: Hello \n"] }

/-! Shared helper lemmas. -/

theorem chatDispatch_spec (env : Env) (b : ZeekyAssistant) :
    ((chatDispatch env b).1 = b ∧ ∃ e, (chatDispatch env b).2 = Except.error e)
    ∨ (∃ r, (chatDispatch env b).2 = Except.ok r ∧
        (chatDispatch env b).1
          = { model := b.model
              messages := b.messages ++ [⟨Role.assistant, r⟩] }) := by
  unfold chatDispatch
  repeat' split
  all_goals simp

theorem chatDispatch_fst_model (env : Env) (b : ZeekyAssistant) :
    (chatDispatch env b).1.model = b.model := by
  rcases chatDispatch_spec env b with ⟨h1, _⟩ | ⟨r, _, h1⟩ <;> rw [h1]

theorem chatDispatch_error_fst (env : Env) (b : ZeekyAssistant)
    (e : ChatError) (h : (chatDispatch env b).2 = Except.error e) :
    (chatDispatch env b).1 = b := by
  rcases chatDispatch_spec env b with ⟨h1, _⟩ | ⟨r, h2, _⟩
  · exact h1
  · rw [h] at h2
    exact absurd h2 (by simp)

theorem chatDispatch_ok_fst (env : Env) (b : ZeekyAssistant)
    (r : String) (h : (chatDispatch env b).2 = Except.ok r) :
    (chatDispatch env b).1
      = { model := b.model
          messages := b.messages ++ [⟨Role.assistant, r⟩] } := by
  rcases chatDispatch_spec env b with ⟨_, e, h2⟩ | ⟨r2, h2, h1⟩
  · rw [h] at h2
    exact absurd h2 (by simp)
  · rw [h] at h2
    cases h2
    exact h1

theorem chat_fst_model (env : Env) (a : ZeekyAssistant) (x : String) :
    (chat env a x).1.model = a.model := by
  have h := chatDispatch_fst_model env (appendUser a x)
  simpa [chat, appendUser] using h

theorem chat_error_messages (env : Env) (a : ZeekyAssistant) (x : String)
    (e : ChatError) (h : (chat env a x).2 = Except.error e) :
    (chat env a x).1.messages = a.messages ++ [⟨Role.user, x⟩] := by
  have h2 := chatDispatch_error_fst env (appendUser a x) e h
  simp only [chat] at h2 ⊢
  rw [h2]
  rfl

theorem chat_ok_messages (env : Env) (a : ZeekyAssistant) (x : String)
    (r : String) (h : (chat env a x).2 = Except.ok r) :
    (chat env a x).1.messages
      = a.messages ++ [⟨Role.user, x⟩, ⟨Role.assistant, r⟩] := by
  have h2 := chatDispatch_ok_fst env (appendUser a x) r h
  simp only [chat] at h2 ⊢
  rw [h2]
  simp [appendUser]

theorem runChats_results_length (env : Env) (inputs : List String) :
    ∀ a : ZeekyAssistant, ((runChats env a inputs).2).length = inputs.length := by
  induction inputs with
  | nil => intro a; rfl
  | cons x xs ih =>
    intro a
    simp only [runChats, List.length_cons]
    rw [ih]

theorem runChats_ok_messages (env : Env) (inputs : List String) :
    ∀ (replies : List String) (a : ZeekyAssistant),
      (runChats env a inputs).2 = replies.map Except.ok →
      (runChats env a inputs).1.messages
        = a.messages ++ interleavePairs (inputs.zip replies) := by
  induction inputs with
  | nil =>
    intro replies a h
    simp [runChats, interleavePairs]
  | cons x xs ih =>
    intro replies a h
    simp only [runChats] at h ⊢
    cases replies with
    | nil => simp at h
    | cons r rs =>
      simp only [List.map_cons, List.cons.injEq] at h
      obtain ⟨h1, h2⟩ := h
      have hx := chat_ok_messages env a x r h1
      have htail := ih rs (chat env a x).1 h2
      rw [htail, hx]
      simp only [List.zip_cons_cons, interleavePairs, List.append_assoc,
        List.cons_append, List.nil_append]
      rfl

theorem interleavePairs_length (l : List (String × String)) :
    (interleavePairs l).length = 2 * l.length := by
  induction l with
  | nil => rfl
  | cons p rest ih =>
    obtain ⟨u, r⟩ := p
    simp only [interleavePairs, List.length_cons, ih]
    omega

theorem userAssistantPairs_interleave (l : List (String × String)) :
    userAssistantPairs (interleavePairs l) = true := by
  induction l with
  | nil => rfl
  | cons p rest ih =>
    obtain ⟨u, r⟩ := p
    simp only [interleavePairs, userAssistantPairs, ih]
    decide

/-! Claim theorems. -/

/-- C1: after any sequence of N successful `chat` calls on a freshly
constructed assistant, the transcript has length 1 + 2N, starts with the
single system message, then alternates user/assistant strictly, with each
user message holding the corresponding input verbatim and each assistant
message holding the corresponding returned reply. -/
theorem C1_transcript_shape (env : Env) (model : String)
    (sysPrompt : Option String) (inputs replies : List String)
    (h : (runChats env (ZeekyAssistant.init model sysPrompt) inputs).2
        = replies.map Except.ok) :
    ((runChats env (ZeekyAssistant.init model sysPrompt) inputs).1.messages).length
        = 1 + 2 * inputs.length
    ∧ wellFormedTranscript
        ((runChats env (ZeekyAssistant.init model sysPrompt) inputs).1.messages)
        = true
    ∧ (runChats env (ZeekyAssistant.init model sysPrompt) inputs).1.messages
        = ⟨Role.system, truthyOr sysPrompt defaultSystemPersona⟩
            :: interleavePairs (inputs.zip replies) := by
  have hlen : replies.length = inputs.length := by
    have hr := runChats_results_length env inputs (ZeekyAssistant.init model sysPrompt)
    rw [h, List.length_map] at hr
    exact hr
  have hm := runChats_ok_messages env inputs replies (ZeekyAssistant.init model sysPrompt) h
  have hinit : (ZeekyAssistant.init model sysPrompt).messages
      = [⟨Role.system, truthyOr sysPrompt defaultSystemPersona⟩] := rfl
  rw [hinit, List.singleton_append] at hm
  have hz : (inputs.zip replies).length = inputs.length := by
    rw [List.length_zip, hlen, Nat.min_self]
  refine ⟨?_, ?_, hm⟩
  · rw [hm, List.length_cons, interleavePairs_length, hz]
    omega
  · rw [hm]
    simp only [wellFormedTranscript, userAssistantPairs_interleave]
    decide

/-- Witness for C1: two echoed calls against the stub OpenAI provider. -/
theorem C1_witness :
    ((runChats echoEnv (ZeekyAssistant.init "gpt-4o-mini" none) ["Hello", "Again"]).2
        = (["Echo", "Echo"] : List String).map Except.ok)
    ∧ ((runChats echoEnv (ZeekyAssistant.init "gpt-4o-mini" none)
        ["Hello", "Again"]).1.messages).length = 1 + 2 * 2 :=
  ⟨by decide,
   (C1_transcript_shape echoEnv "gpt-4o-mini" none ["Hello", "Again"]
      ["Echo", "Echo"] (by decide)).1⟩

/-- C2: with a world whose two routes are observably distinct, a chat call
hits the Anthropic path (observed as its configuration failure) exactly
when the stored model name starts with "claude" or "anthropic",
case-sensitively, and hits the OpenAI path (observed as its reply)
otherwise; in particular the model "Claude-x" takes the OpenAI path. -/
theorem C2_prefix_routing (model input : String) (msgs : List Message) :
    ((chat routeProbeEnv { model := model, messages := msgs } input).2
      = if pyStartsWith model "claude" || pyStartsWith model "anthropic" then
          Except.error ChatError.configurationError
        else Except.ok "OPENAI")
    ∧ (chat routeProbeEnv { model := "Claude-x", messages := msgs } input).2
        = Except.ok "OPENAI" := by
  have hstrip : pyStrip "OPENAI" = "OPENAI" := by decide
  constructor
  · by_cases hc : (pyStartsWith model "claude" || pyStartsWith model "anthropic") = true
    · simp [chat, chatDispatch, appendUser, routeProbeEnv, hc]
    · simp [chat, chatDispatch, appendUser, routeProbeEnv, hc, hstrip]
  · have hcx : (pyStartsWith "Claude-x" "claude"
        || pyStartsWith "Claude-x" "anthropic") = false := by decide
    simp [chat, chatDispatch, appendUser, routeProbeEnv, hcx, hstrip]

/-- C3: a failing `chat` call, whatever the failure, leaves the transcript
equal to the pre-call transcript plus exactly the new user message, and
leaves the model unchanged. -/
theorem C3_failure_frame (env : Env) (a : ZeekyAssistant) (input : String)
    (e : ChatError) (h : (chat env a input).2 = Except.error e) :
    (chat env a input).1.messages = a.messages ++ [⟨Role.user, input⟩]
    ∧ (chat env a input).1.model = a.model :=
  ⟨chat_error_messages env a input e h, chat_fst_model env a input⟩

/-- Witness for C3: a transport failure on the OpenAI path. -/
theorem C3_witness :
    ((chat transportFailEnv (ZeekyAssistant.init "gpt-4o-mini" none) "Hi").2
        = Except.error ChatError.providerError)
    ∧ (chat transportFailEnv (ZeekyAssistant.init "gpt-4o-mini" none) "Hi").1.messages
        = (ZeekyAssistant.init "gpt-4o-mini" none).messages ++ [⟨Role.user, "Hi"⟩] :=
  ⟨by decide,
   (C3_failure_frame transportFailEnv (ZeekyAssistant.init "gpt-4o-mini" none)
      "Hi" ChatError.providerError (by decide)).1⟩

/-- C4: on the Anthropic route, a missing client library or an unset
credential yields the configuration error with no provider call made (the
conclusion is independent of the universally quantified provider
behaviour), and the transcript keeps only the new user message. -/
theorem C4_anthropic_config_guard (env : Env) (a : ZeekyAssistant) (input : String)
    (hroute : (pyStartsWith a.model "claude" || pyStartsWith a.model "anthropic") = true)
    (hcfg : env.anthropicAvailable = false ∨ env.anthropicApiKey = none) :
    (chat env a input).2 = Except.error ChatError.configurationError
    ∧ (chat env a input).1.messages = a.messages ++ [⟨Role.user, input⟩] := by
  have hr : (chat env a input).2 = Except.error ChatError.configurationError := by
    rcases hcfg with hc | hc
    · simp [chat, chatDispatch, appendUser, hroute, hc]
    · cases havail : env.anthropicAvailable <;>
        simp [chat, chatDispatch, appendUser, hroute, hc, havail]
  exact ⟨hr, chat_error_messages env a input ChatError.configurationError hr⟩

/-- Witness for C4: the anthropic library is unavailable. -/
theorem C4_witness :
    ((pyStartsWith "claude-3-opus" "claude"
        || pyStartsWith "claude-3-opus" "anthropic") = true)
    ∧ (routeProbeEnv.anthropicAvailable = false ∨ routeProbeEnv.anthropicApiKey = none)
    ∧ (chat routeProbeEnv (ZeekyAssistant.init "claude-3-opus" none) "Hi").2
        = Except.error ChatError.configurationError :=
  ⟨by decide, by decide,
   (C4_anthropic_config_guard routeProbeEnv (ZeekyAssistant.init "claude-3-opus" none)
      "Hi" (by decide) (by decide)).1⟩

/-- C5: on a fully configured Anthropic route, the returned reply is the
concatenation of the text of every content block the provider returned, in
order, with no separator. -/
theorem C5_blocks_concat (env : Env) (a : ZeekyAssistant) (input key : String)
    (blocks : List String)
    (hroute : (pyStartsWith a.model "claude" || pyStartsWith a.model "anthropic") = true)
    (havail : env.anthropicAvailable = true)
    (hkey : env.anthropicApiKey = some key) (hk : key ≠ "")
    (hsend : env.anthropicSend (a.messages ++ [⟨Role.user, input⟩]) a.model
        anthropicMaxTokens = Except.ok blocks) :
    (chat env a input).2 = Except.ok (String.join blocks) := by
  simp [chat, chatDispatch, appendUser, hroute, havail, hkey, hk, hsend]

/-- Witness for C5: model "claude-3-opus", blocks "Hel" and "lo!",
yielding exactly "Hello!". -/
theorem C5_witness :
    ((pyStartsWith "claude-3-opus" "claude"
        || pyStartsWith "claude-3-opus" "anthropic") = true)
    ∧ anthropicBlocksEnv.anthropicApiKey = some "k"
    ∧ (chat anthropicBlocksEnv (ZeekyAssistant.init "claude-3-opus" none) "Hi").2
        = Except.ok "Hello!" := by
  refine ⟨by decide, rfl, ?_⟩
  have h := C5_blocks_concat anthropicBlocksEnv
    (ZeekyAssistant.init "claude-3-opus" none) "Hi" "k" ["Hel", "lo!"]
    (by decide) rfl rfl (by decide) rfl
  exact h

/-- C6: on the OpenAI route, a response with at least one completion
choice yields the first choice's content stripped of leading and trailing
whitespace, and a response with zero choices fails as a provider error. -/
theorem C6_openai_first_choice (env : Env) (a : ZeekyAssistant) (input : String)
    (choices : List String)
    (hroute : (pyStartsWith a.model "claude" || pyStartsWith a.model "anthropic") = false)
    (hsend : env.openaiSend (a.messages ++ [⟨Role.user, input⟩]) a.model
        = Except.ok choices) :
    (choices = [] → (chat env a input).2 = Except.error ChatError.providerError)
    ∧ ∀ c cs, choices = c :: cs → (chat env a input).2 = Except.ok (pyStrip c) := by
  constructor
  · intro hnil
    subst hnil
    simp [chat, chatDispatch, appendUser, hroute, hsend]
  · intro c cs hcc
    subst hcc
    simp [chat, chatDispatch, appendUser, hroute, hsend]

/-- Witness for C6: a zero-choice response fails; a one-choice response
comes back stripped. -/
theorem C6_witness :
    ((chat zeroChoicesEnv (ZeekyAssistant.init "gpt-4o-mini" none) "Hi").2
        = Except.error ChatError.providerError)
    ∧ (chat whitespaceChoiceEnv (ZeekyAssistant.init "gpt-4o-mini" none) "Hello").2
        = Except.ok "Echo: Hello" := by
  constructor
  · exact (C6_openai_first_choice zeroChoicesEnv
      (ZeekyAssistant.init "gpt-4o-mini" none) "Hi" [] (by decide) rfl).1 rfl
  · have h := (C6_openai_first_choice whitespaceChoiceEnv
      (ZeekyAssistant.init "gpt-4o-mini" none) "Hello" ["  Echo: Hello \n"]
      (by decide) rfl).2 "  Echo: Hello \n" [] rfl
    exact h

/-- C9: a constructor call with the empty string as system prompt seeds
the transcript with the fixed default persona, not the empty string; a
non-empty prompt is used verbatim. -/
theorem C9_empty_prompt_default (model : String) :
    (ZeekyAssistant.init model (some "")).messages
        = [⟨Role.system, defaultSystemPersona⟩]
    ∧ ∀ s : String, s ≠ "" →
        (ZeekyAssistant.init model (some s)).messages = [⟨Role.system, s⟩] := by
  constructor
  · rfl
  · intro s hs
    simp [ZeekyAssistant.init, truthyOr, hs]

/-- Witness for C9: the empty prompt falls back, a custom one is kept. -/
theorem C9_witness :
    (ZeekyAssistant.init "gpt-4o-mini" (some "")).messages
        = [⟨Role.system, defaultSystemPersona⟩]
    ∧ ("custom" ≠ "" ∧ (ZeekyAssistant.init "gpt-4o-mini" (some "custom")).messages
        = [⟨Role.system, "custom"⟩]) :=
  ⟨(C9_empty_prompt_default "gpt-4o-mini").1,
   by decide,
   (C9_empty_prompt_default "gpt-4o-mini").2 "custom" (by decide)⟩

/-- C10: an `ANTHROPIC_API_KEY` set to the empty string behaves exactly
like an unset one, on every input and in every world; on the Anthropic
route with the library available this is the configuration failure, raised
before the provider is consulted. -/
theorem C10_empty_key_like_unset (env : Env) (a : ZeekyAssistant) (input : String) :
    chat { env with anthropicApiKey := some "" } a input
        = chat { env with anthropicApiKey := none } a input
    ∧ ((pyStartsWith a.model "claude" || pyStartsWith a.model "anthropic") = true →
        (chat { env with anthropicApiKey := some "" } a input).2
          = Except.error ChatError.configurationError) := by
  constructor
  · by_cases hc : (pyStartsWith a.model "claude" || pyStartsWith a.model "anthropic") = true
    · cases havail : env.anthropicAvailable <;>
        simp [chat, chatDispatch, appendUser, hc, havail]
    · simp [chat, chatDispatch, appendUser, hc]
  · intro hroute
    cases havail : env.anthropicAvailable <;>
      simp [chat, chatDispatch, appendUser, hroute, havail]

/-- Witness for C10: the configured Anthropic world with its key replaced
by the empty string fails the configuration check. -/
theorem C10_witness :
    ((pyStartsWith "claude-3" "claude" || pyStartsWith "claude-3" "anthropic") = true)
    ∧ (chat { anthropicBlocksEnv with anthropicApiKey := some "" }
        (ZeekyAssistant.init "claude-3" none) "Hi").2
        = Except.error ChatError.configurationError :=
  ⟨by decide,
   (C10_empty_key_like_unset anthropicBlocksEnv
      (ZeekyAssistant.init "claude-3" none) "Hi").2 (by decide)⟩

/-! Registry frame lemmas and the HTTP-layer claims. -/

theorem getSession_setSession_self (s : List (String × ZeekyAssistant))
    (sid : String) (a : ZeekyAssistant) :
    getSession (setSession s sid a) sid = some a := by
  induction s with
  | nil => simp [setSession, getSession]
  | cons kv rest ih =>
    obtain ⟨k, v⟩ := kv
    by_cases hk : k = sid
    · subst hk
      simp [setSession, getSession]
    · simp [setSession, getSession, hk, ih]

theorem getSession_setSession_ne (s : List (String × ZeekyAssistant))
    (sid k : String) (a : ZeekyAssistant) (h : k ≠ sid) :
    getSession (setSession s sid a) k = getSession s k := by
  induction s with
  | nil => simp [setSession, getSession, Ne.symm h]
  | cons kv rest ih =>
    obtain ⟨k2, v⟩ := kv
    by_cases hk2 : k2 = sid
    · subst hk2
      simp [setSession, getSession, Ne.symm h]
    · simp only [setSession, getSession, if_neg hk2]
      by_cases hk : k2 = k
      · simp [getSession, hk]
      · simp [getSession, hk, ih]

theorem finishChat_fst (env : Env) (s : List (String × ZeekyAssistant))
    (sid : String) (a : ZeekyAssistant) (m : String) :
    (finishChat env s sid a m).1 = setSession s sid (chat env a m).1 := by
  cases h : (chat env a m).2 with
  | ok r => simp [finishChat, h]
  | error e => simp [finishChat, h]

theorem handleCreate_fst (env : Env) (f : String)
    (s : List (String × ZeekyAssistant)) (m : String) :
    (handleCreate env f s m).1
      = setSession (setSession s f (ZeekyAssistant.init "gpt-4o-mini" none)) f
          (chat env (ZeekyAssistant.init "gpt-4o-mini" none) m).1 := by
  unfold handleCreate
  rw [finishChat_fst]

theorem handleCreate_lookup_other (env : Env) (f k : String)
    (s : List (String × ZeekyAssistant)) (m : String) (h : k ≠ f) :
    getSession (handleCreate env f s m).1 k = getSession s k := by
  rw [handleCreate_fst, getSession_setSession_ne _ _ _ _ h,
    getSession_setSession_ne _ _ _ _ h]

theorem handleCreate_lookup_self (env : Env) (f : String)
    (s : List (String × ZeekyAssistant)) (m : String) :
    getSession (handleCreate env f s m).1 f
      = some (chat env (ZeekyAssistant.init "gpt-4o-mini" none) m).1 := by
  rw [handleCreate_fst, getSession_setSession_self]

/-- C7 fails as stated: a request carrying a present but empty-string
session identifier that is not a key of the (here empty) registry is not
answered with the 404 and does create a session, because Python truthiness
makes `if request.session_id` treat the empty string like an absent one. -/
theorem C7_counterexample :
    (handleChat echoEnv "f1" [] { session_id := some "", message := "hi" }).2
        ≠ Except.error ApiError.notFound
    ∧ (handleChat echoEnv "f1" [] { session_id := some "", message := "hi" }).1
        ≠ ([] : List (String × ZeekyAssistant)) := by
  constructor <;> decide

/-- C7 as amended: for a present and NON-EMPTY session identifier, an
unknown identifier yields the 404 with the registry unchanged (no session
created), and a known identifier reuses exactly the stored session; a
present empty-string identifier instead takes the creation path. -/
theorem C7_amended_lookup (env : Env) (freshId sid msg : String)
    (sessions : List (String × ZeekyAssistant)) (hsid : sid ≠ "") :
    (getSession sessions sid = none →
      handleChat env freshId sessions { session_id := some sid, message := msg }
        = (sessions, Except.error ApiError.notFound))
    ∧ ∀ a : ZeekyAssistant, getSession sessions sid = some a →
        handleChat env freshId sessions { session_id := some sid, message := msg }
          = finishChat env sessions sid a msg := by
  constructor
  · intro hnone
    simp [handleChat, hsid, hnone]
  · intro a ha
    simp [handleChat, hsid, ha]

/-- Witness for the amended C7: an unknown non-empty identifier is a 404
against the empty registry; a known one reuses the stored session. -/
theorem C7_witness :
    ("s1" ≠ "")
    ∧ handleChat echoEnv "f9" [] { session_id := some "s1", message := "hi" }
        = ([], Except.error ApiError.notFound)
    ∧ handleChat echoEnv "f9"
        [("s1", ZeekyAssistant.init "gpt-4o-mini" none)]
        { session_id := some "s1", message := "hi" }
        = finishChat echoEnv [("s1", ZeekyAssistant.init "gpt-4o-mini" none)]
            "s1" (ZeekyAssistant.init "gpt-4o-mini" none) "hi" :=
  ⟨by decide,
   (C7_amended_lookup echoEnv "f9" "s1" "hi" [] (by decide)).1 rfl,
   (C7_amended_lookup echoEnv "f9" "s1" "hi"
      [("s1", ZeekyAssistant.init "gpt-4o-mini" none)] (by decide)).2
      (ZeekyAssistant.init "gpt-4o-mini" none) rfl⟩

/-- C8: two creations under distinct fresh identifiers register two
sessions under the distinct keys, each holding only its own conversation;
the second creation leaves the first entry intact, and a later chat call
addressed to the first session leaves the second session's entry — its
transcript and model — completely unchanged. -/
theorem C8_session_independence (env1 env2 : Env)
    (f1 f2 m1 m2 msg : String) (s0 : List (String × ZeekyAssistant))
    (h12 : f1 ≠ f2) (h1e : f1 ≠ "") :
    getSession
        ((handleChat env2 f2
          (handleChat env1 f1 s0 { session_id := none, message := m1 }).1
          { session_id := none, message := m2 }).1) f2
      = some (chat env2 (ZeekyAssistant.init "gpt-4o-mini" none) m2).1
    ∧ getSession
        ((handleChat env2 f2
          (handleChat env1 f1 s0 { session_id := none, message := m1 }).1
          { session_id := none, message := m2 }).1) f1
      = some (chat env1 (ZeekyAssistant.init "gpt-4o-mini" none) m1).1
    ∧ ∀ (env3 : Env) (f3 : String),
        getSession
          ((handleChat env3 f3
            (handleChat env2 f2
              (handleChat env1 f1 s0 { session_id := none, message := m1 }).1
              { session_id := none, message := m2 }).1
            { session_id := some f1, message := msg }).1) f2
        = getSession
            ((handleChat env2 f2
              (handleChat env1 f1 s0 { session_id := none, message := m1 }).1
              { session_id := none, message := m2 }).1) f2 := by
  have e1 : ∀ (env : Env) (f : String) (s : List (String × ZeekyAssistant))
      (m : String),
      handleChat env f s { session_id := none, message := m }
        = handleCreate env f s m := fun _ _ _ _ => rfl
  have ha0 : getSession (handleCreate env2 f2 (handleCreate env1 f1 s0 m1).1 m2).1 f1
      = some (chat env1 (ZeekyAssistant.init "gpt-4o-mini" none) m1).1 := by
    rw [handleCreate_lookup_other env2 f2 f1 _ m2 h12]
    exact handleCreate_lookup_self env1 f1 s0 m1
  have ha : getSession
      ((handleChat env2 f2
        (handleChat env1 f1 s0 { session_id := none, message := m1 }).1
        { session_id := none, message := m2 }).1) f1
      = some (chat env1 (ZeekyAssistant.init "gpt-4o-mini" none) m1).1 := by
    rw [e1, e1]
    exact ha0
  refine ⟨?_, ha, ?_⟩
  · rw [e1, e1]
    exact handleCreate_lookup_self env2 f2 _ m2
  · intro env3 f3
    have hh : handleChat env3 f3
        ((handleChat env2 f2
          (handleChat env1 f1 s0 { session_id := none, message := m1 }).1
          { session_id := none, message := m2 }).1)
        { session_id := some f1, message := msg }
        = finishChat env3
            ((handleChat env2 f2
              (handleChat env1 f1 s0 { session_id := none, message := m1 }).1
              { session_id := none, message := m2 }).1) f1
            (chat env1 (ZeekyAssistant.init "gpt-4o-mini" none) m1).1 msg := by
      simp [handleChat, h1e, ha0]
    rw [hh, finishChat_fst, getSession_setSession_ne _ _ _ _ (Ne.symm h12)]

/-- Witness for C8: two creations under "a" and "b" from the empty
registry, then a chat addressed to "a"; the entry under "b" is untouched. -/
theorem C8_witness :
    ("a" ≠ "b")
    ∧ getSession
        ((handleChat echoEnv "c"
          (handleChat echoEnv "b"
            (handleChat echoEnv "a" [] { session_id := none, message := "m1" }).1
            { session_id := none, message := "m2" }).1
          { session_id := some "a", message := "m3" }).1) "b"
      = getSession
          ((handleChat echoEnv "b"
            (handleChat echoEnv "a" [] { session_id := none, message := "m1" }).1
            { session_id := none, message := "m2" }).1) "b" :=
  ⟨by decide,
   (C8_session_independence echoEnv echoEnv "a" "b" "m1" "m2" "m3" []
      (by decide) (by decide)).2.2 echoEnv "c"⟩
